import Mathlib

/-!
Shallow embedding of the Moltbook agent-development-kit client
(`lib/client.js`, the `MoltbookClient` class) and of the OpenClaw skill
helpers (`index.js`: `loadCredentials`, `createClient`, `getRelevantPosts`,
`loadHeartbeatState`, `saveHeartbeatState`, `shouldCheckMoltbook`,
`updateMoltbookCheckTime`), together with theorems settling the spec claims.

JavaScript values flowing through the client are modelled by a small `Json`
inductive extended with `jsUndefined` (the JS `undefined` produced by a missing
property).  JS objects are modelled as association lists with unique keys:
property read is `List.lookup` (first match) and property write / object
literal evaluation is `setField`, which replaces the first occurrence or
appends.  JS truthiness and `a || b` are modelled by `Json.truthy` and
`jsOrVal`.  Numeric JS values are modelled by `Int`; `NaN` arising from
`parseInt` on garbage is modelled by `Option Int` (`none` = NaN), and string
coercion corner cases that no claim exercises are noted where they occur.
-/

namespace Moltbook

/-- JS values: JSON plus `undefined`. -/
inductive Json where
  | jsUndefined : Json
  | null : Json
  | bool (b : Bool) : Json
  | num (n : Int) : Json
  | str (s : String) : Json
  | arr (elems : List Json) : Json
  | obj (fields : List (String × Json)) : Json

/-- JS truthiness.  `NaN` is not representable in `num`; arrays and objects
(empty ones included) are truthy. -/
def Json.truthy : Json → Bool
  | .jsUndefined => false
  | .null => false
  | .bool b => b
  | .num n => decide (n ≠ 0)
  | .str s => decide (s ≠ "")
  | .arr _ => true
  | .obj _ => true

/-- Property read on a value statically known to be an object: the entry at
the key, or `undefined` when absent. -/
def objGet (fields : List (String × Json)) (k : String) : Json :=
  (List.lookup k fields).getD .jsUndefined

/-- JS property read `j.k`: property access on `null` or `undefined` throws
a TypeError, modelled as `none`; on an object it yields the entry or
`undefined`; on a boxed primitive or an array it yields `undefined` for the
keys this client reads. -/
def Json.getF : Json → String → Option Json
  | .null, _ => none
  | .jsUndefined, _ => none
  | .obj fields, k => some (objGet fields k)
  | _, _ => some .jsUndefined

/-- JS property write `obj[k] = v` on an association list with unique keys:
replace the first occurrence, or append when absent.  Object literal
evaluation `{k₁ : v₁, k₂ : v₂, ...}` is the left fold of this over the
entries. -/
def setField : List (String × Json) → String → Json → List (String × Json)
  | [], k, v => [(k, v)]
  | (k', w) :: rest, k, v =>
    if k' = k then (k, v) :: rest else (k', w) :: setField rest k v

/-- JS `a || b` on values. -/
def jsOrVal (a b : Json) : Json := if a.truthy then a else b

/-- JS `a || b` where evaluating the left operand may have thrown (`none`
propagates the throw) and the right operand is reached only when the left is
a falsy value. -/
def jsOrTry (a b : Option Json) : Option Json :=
  match a with
  | none => none
  | some v => if v.truthy then some v else b

/-- JS string coercion for the value shapes the claims touch. -/
def jsStringOf : Json → String
  | .str s => s
  | .num n => toString n
  | .bool b => cond b "true" "false"
  | .null => "null"
  | .jsUndefined => "undefined"
  | .arr _ => ""
  | .obj _ => "[object Object]"

/-! URL building (`lib/client.js`).  `encodeURIComponent` is modelled by the
standard algorithm: UTF-8 encode, percent-escape every byte outside the
unescaped set (ASCII alphanumerics and the marks minus, underscore, dot,
bang, tilde, star, apostrophe, parens), uppercase hex. -/

/-- UTF-8 encoding of one code point, as byte values. -/
def utf8Bytes (c : Char) : List Nat :=
  let n := c.toNat
  if n < 128 then [n]
  else if n < 2048 then [192 + n / 64, 128 + n % 64]
  else if n < 65536 then [224 + n / 4096, 128 + n / 64 % 64, 128 + n % 64]
  else [240 + n / 262144, 128 + n / 4096 % 64, 128 + n / 64 % 64, 128 + n % 64]

/-- Uppercase hexadecimal digit. -/
def hexDigit (n : Nat) : Char := if n < 10 then Char.ofNat (48 + n) else Char.ofNat (55 + n)

/-- Bytes that JS encodeURIComponent leaves unescaped. -/
def uriUnreserved (b : Nat) : Bool :=
  (65 ≤ b && b ≤ 90) || (97 ≤ b && b ≤ 122) || (48 ≤ b && b ≤ 57) ||
  b == 45 || b == 95 || b == 46 || b == 33 || b == 126 || b == 42 ||
  b == 39 || b == 40 || b == 41

/-- Percent-escape one byte unless unreserved. -/
def encodeByte (b : Nat) : List Char :=
  if uriUnreserved b then [Char.ofNat b]
  else ['%', hexDigit (b / 16), hexDigit (b % 16)]

/-- JS encodeURIComponent. -/
def encodeURIComponent (s : String) : String :=
  String.mk ((s.toList.flatMap utf8Bytes).flatMap encodeByte)

/-! Path templates, transcribed one-for-one from the client methods.  The
methods that take an agent or submolt name pass it through
`encodeURIComponent`; the methods that take a post or comment id interpolate
it directly. -/

/-- getAgent: GET /agents/profile?name=... -/
def getAgentPath (name : String) : String := "/agents/profile?name=" ++ encodeURIComponent name

/-- follow (POST) and unfollow (DELETE) share this path. -/
def followPath (name : String) : String := "/agents/" ++ encodeURIComponent name ++ "/follow"

/-- getPost: GET /posts/:id (id interpolated raw). -/
def getPostPath (id : String) : String := "/posts/" ++ id

/-- deletePost: DELETE /posts/:id (id interpolated raw). -/
def deletePostPath (id : String) : String := "/posts/" ++ id

/-- upvotePost: POST /posts/:id/upvote (id interpolated raw). -/
def upvotePostPath (id : String) : String := "/posts/" ++ id ++ "/upvote"

/-- createComment: POST /posts/:postId/comments (postId interpolated raw). -/
def createCommentPath (postId : String) : String := "/posts/" ++ postId ++ "/comments"

/-- getComment: GET /comments/:id (id interpolated raw). -/
def getCommentPath (id : String) : String := "/comments/" ++ id

/-- listComments: GET /posts/:postId/comments?params (postId interpolated raw). -/
def listCommentsPath (postId : String) (params : String) : String :=
  "/posts/" ++ postId ++ "/comments?" ++ params

/-- getSubmolt: GET /submolts/:name. -/
def getSubmoltPath (name : String) : String := "/submolts/" ++ encodeURIComponent name

/-- subscribe (POST) and unsubscribe (DELETE) share this path. -/
def subscribePath (name : String) : String :=
  "/submolts/" ++ encodeURIComponent name ++ "/subscribe"

/-- getSubmoltFeed: GET /submolts/:name/feed?params. -/
def getSubmoltFeedPath (name : String) (params : String) : String :=
  "/submolts/" ++ encodeURIComponent name ++ "/feed?" ++ params

/-! Rate-limit tracking and the request core (`MoltbookClient.request`). -/

/-- Result of JS parseInt, radix 10: skip leading whitespace, optional sign,
read leading digits; `none` models NaN (no digit found). -/
def digitsVal : List Char → Option Nat → Option Nat
  | [], acc => acc
  | c :: rest, acc =>
    if 48 ≤ c.toNat ∧ c.toNat ≤ 57 then
      digitsVal rest (some ((acc.getD 0) * 10 + (c.toNat - 48)))
    else acc

/-- JS parseInt on a string (radix 10). -/
def parseIntJS (s : String) : Option Int :=
  let cs := s.toList.dropWhile (fun c => c == ' ' || c == '\t' || c == '\n' || c == '\r')
  match cs with
  | '-' :: rest => (digitsVal rest none).map (fun n => -(n : Int))
  | '+' :: rest => (digitsVal rest none).map (fun n => (n : Int))
  | _ => (digitsVal cs none).map (fun n => (n : Int))

/-- The idiom `parseInt(response.headers.get(name) || chr(48))` from
`request`: a missing (or empty, hence falsy) header falls back to the string
"0".  `none` models NaN from a non-numeric header value. -/
def headerNum (headers : List (String × String)) (name : String) : Option Int :=
  let h := (List.lookup name headers).getD ""
  parseIntJS (if h = "" then "0" else h)

/-- The rate-limit snapshot stored by `request`; field values are `Option Int`
with `none` for NaN.  `resetAt` is the derived `new Date(reset * 1000)`
timestamp in milliseconds. -/
structure RateLimitInfo where
  limit : Option Int
  remaining : Option Int
  reset : Option Int
  resetAt : Option Int
deriving DecidableEq

/-- The snapshot `request` builds from the response headers. -/
def storeRateLimit (headers : List (String × String)) : RateLimitInfo :=
  let r := headerNum headers "x-ratelimit-reset"
  { limit := headerNum headers "x-ratelimit-limit"
    remaining := headerNum headers "x-ratelimit-remaining"
    reset := r
    resetAt := r.map (· * 1000) }

/-- A completed HTTP response as `request` observes it: status, status text,
headers, and the result of parsing the body as JSON (`none` when the body is
not valid JSON, in which case `response.json()` rejects). -/
structure HttpResponse where
  status : Nat
  statusText : String
  headers : List (String × String)
  body : Option Json

/-- fetch `response.ok`: status in the 2xx range. -/
def HttpResponse.respOk (r : HttpResponse) : Bool := decide (200 ≤ r.status ∧ r.status < 300)

/-- A thrown JS Error as the client builds it.  `statusCode` and `response`
are the extra properties `request` attaches on an HTTP error; they are absent
(`none`) on errors thrown elsewhere, e.g. the missing-credentials error. -/
structure JsError where
  message : String
  statusCode : Option Nat
  response : Option Json

/-- The error payload for a non-ok response: the parsed JSON body, or the
fallback object built from the status text when the body does not parse. -/
def errBody (resp : HttpResponse) : Json :=
  match resp.body with
  | some j => j
  | none => .obj [("message", .str resp.statusText)]

/-- The bare TypeError thrown when `error.message` is read from a null error
payload (a non-2xx response whose JSON body is the literal null); it carries
neither a statusCode nor a response property. -/
def nullBodyTypeError : JsError :=
  { message := "TypeError: Cannot read properties of null"
    statusCode := none
    response := none }

/-- The typed Error value `request` throws on a non-ok response once reading
`error.message` succeeded with value `m`: message = m or the HTTP fallback,
statusCode = HTTP status, response = the error payload. -/
def errOfResponse (resp : HttpResponse) (m : Json) : JsError :=
  { message := jsStringOf (jsOrVal m (.str ("HTTP " ++ toString resp.status)))
    statusCode := some resp.status
    response := some (errBody resp) }

/-- Client instance state: configured API key and the mutable rate-limit
snapshot (`null` initially). -/
structure MoltbookClient where
  apiKey : Json
  rateLimitInfo : Option RateLimitInfo

/-- Constructor: `this.rateLimitInfo = null`. -/
def MoltbookClient.init (apiKey : Json) : MoltbookClient :=
  { apiKey := apiKey, rateLimitInfo := none }

/-- One `request` round trip, given the response the fetch produced: stores
the rate-limit snapshot unconditionally, then either returns the parsed body
(ok) or throws on a non-ok response: reading `error.message` from a null
payload throws the bare TypeError, otherwise the typed error is built.  A
parse failure on an ok response rejects with a plain SyntaxError carrying no
statusCode; its message text is engine-defined. -/
def MoltbookClient.request (c : MoltbookClient) (resp : HttpResponse) :
    MoltbookClient × Except JsError Json :=
  let c2 := { c with rateLimitInfo := some (storeRateLimit resp.headers) }
  if resp.respOk then
    match resp.body with
    | some j => (c2, .ok j)
    | none => (c2, .error { message := "SyntaxError", statusCode := none, response := none })
  else
    match (errBody resp).getF "message" with
    | none => (c2, .error nullBodyTypeError)
    | some m => (c2, .error (errOfResponse resp m))

/-- Accessor for the snapshot. -/
def MoltbookClient.getRateLimitInfo (c : MoltbookClient) : Option RateLimitInfo :=
  c.rateLimitInfo

/-- `this.rateLimitInfo && this.rateLimitInfo.remaining === 0`; JS returns
null (falsy) when no snapshot exists, modelled as false. -/
def MoltbookClient.isRateLimited (c : MoltbookClient) : Bool :=
  match c.rateLimitInfo with
  | some info => decide (info.remaining = some 0)
  | none => false

/-- `this.rateLimitInfo ? this.rateLimitInfo.resetAt : null`. -/
def MoltbookClient.getRateLimitReset (c : MoltbookClient) : Option Int :=
  match c.rateLimitInfo with
  | some info => info.resetAt
  | none => none

/-! Success-payload normalization for the list endpoints; `none` propagates
the TypeError thrown when the success body is the JSON literal null. -/

/-- listPosts: `result.data || result.posts || []`. -/
def listPostsNormalize (result : Json) : Option Json :=
  jsOrTry (result.getF "data") (jsOrTry (result.getF "posts") (some (.arr [])))

/-- getFeed: `result.data || result.posts || []`. -/
def getFeedNormalize (result : Json) : Option Json :=
  jsOrTry (result.getF "data") (jsOrTry (result.getF "posts") (some (.arr [])))

/-- listSubmolts: `result.data || result.submolts || []`. -/
def listSubmoltsNormalize (result : Json) : Option Json :=
  jsOrTry (result.getF "data") (jsOrTry (result.getF "submolts") (some (.arr [])))

/-- getSubmoltFeed: `result.data || result.posts || []`. -/
def getSubmoltFeedNormalize (result : Json) : Option Json :=
  jsOrTry (result.getF "data") (jsOrTry (result.getF "posts") (some (.arr [])))

/-- listComments: `result.comments || []` — note: no probe of `data`. -/
def listCommentsNormalize (result : Json) : Option Json :=
  jsOrTry (result.getF "comments") (some (.arr []))

/-- Follows the words of the spec, for comparison with the code normalizers:
probe the wrapper keys in the given priority order, first key with a truthy
value wins, default to an empty array (a throwing property access
propagates). -/
def specProbe (keys : List String) (result : Json) : Option Json :=
  match keys with
  | [] => some (.arr [])
  | k :: rest => jsOrTry (result.getF k) (specProbe rest result)

/-! Feed filter helper (`getRelevantPosts` in `index.js`). -/

/-- The post fields the filter reads. -/
structure Post where
  title : String
  content : String
  score : Int
  commentCount : Int
deriving DecidableEq

/-- JS `text.includes(pat)`: substring containment. -/
def strIncludes (text pat : String) : Bool := decide (pat.toList <:+: text.toList)

/-- ASCII lowercasing of one character, agreeing with the JS `toLowerCase`
on ASCII input. -/
def toLowerChar (c : Char) : Char :=
  if 65 ≤ c.toNat ∧ c.toNat ≤ 90 then Char.ofNat (c.toNat + 32) else c

/-- ASCII lowercasing of a string. -/
def jsToLower (s : String) : String := String.mk (s.toList.map toLowerChar)

/-- Filter configuration, with the destructuring defaults of the source. -/
structure FilterOptions where
  minScore : Int := 3
  maxComments : Int := 50
  keywords : List String := []
  excludeKeywords : List String := []

/-- The lowercased haystack built in both keyword guards:
a template literal joining title and content with a space, lowercased
(`jsToLower` lowercases ASCII letters, agreeing with the JS `toLowerCase`
on the ASCII text the claims use). -/
def postText (p : Post) : String := jsToLower (p.title ++ " " ++ p.content)

/-- The filter callback of `getRelevantPosts`, guard for guard. -/
def relevantPred (o : FilterOptions) (p : Post) : Bool :=
  if p.score < o.minScore then false
  else if p.commentCount > o.maxComments then false
  else if decide (o.keywords.length > 0) &&
      !(o.keywords.any fun kw => strIncludes (postText p) (jsToLower kw)) then false
  else if decide (o.excludeKeywords.length > 0) &&
      (o.excludeKeywords.any fun kw => strIncludes (postText p) (jsToLower kw)) then false
  else true

/-- `feed.filter(post => ...)`; the feed is the already-fetched list. -/
def getRelevantPosts (feed : List Post) (o : FilterOptions) : List Post :=
  feed.filter (relevantPred o)

/-- Follows the words of the claim, for comparison with `relevantPred`:
score at least minScore, comment count at most maxComments, some keyword
matches case-insensitively when the keyword list is non-empty, and no
excluded keyword matches. -/
def relevantSpecB (o : FilterOptions) (p : Post) : Bool :=
  decide (o.minScore ≤ p.score) && decide (p.commentCount ≤ o.maxComments) &&
  (o.keywords.isEmpty || o.keywords.any fun kw => strIncludes (postText p) (jsToLower kw)) &&
  !(o.excludeKeywords.any fun kw => strIncludes (postText p) (jsToLower kw))

/-! Credential store (`loadCredentials` / `createClient` in `index.js`).
The credentials file is modelled as `Option (List (String × Json))`:
`none` when the fixed-path file is absent, otherwise the parsed JSON object. -/

/-- The normalization object literal of `loadCredentials`: canonical
camelCase fields computed with snake_case fallbacks via `||`, then the
`...raw` spread evaluated last, so every raw key overrides the computed
entry of the same name. -/
def credBase (raw : List (String × Json)) : List (String × Json) :=
  setField (setField (setField (setField (setField []
    "apiKey" (jsOrVal (objGet raw "apiKey") (objGet raw "api_key")))
    "handle" (jsOrVal (objGet raw "handle") (objGet raw "agent_name")))
    "profileUrl" (jsOrVal (objGet raw "profileUrl") (objGet raw "profile_url")))
    "verificationCode" (jsOrVal (objGet raw "verificationCode") (objGet raw "verification_code")))
    "createdAt" (jsOrVal (objGet raw "createdAt") (objGet raw "created_at"))

/-- The full normalized object: the computed canonical entries of `credBase`
followed by the `...raw` spread. -/
def normalizeCreds (raw : List (String × Json)) : List (String × Json) :=
  raw.foldl (fun acc kv => setField acc kv.1 kv.2) (credBase raw)

/-- The error thrown when the fixed-path credentials file is absent. -/
def notRegisteredError : JsError :=
  { message := "Moltbook credentials not found. Run registration first or create ~/.config/moltbook/credentials.json"
    statusCode := none
    response := none }

/-- loadCredentials: existence check on the fixed path, then parse and
normalize. -/
def loadCredentials (file : Option (List (String × Json))) :
    Except JsError (List (String × Json)) :=
  match file with
  | none => .error notRegisteredError
  | some raw => .ok (normalizeCreds raw)

/-- createClient: load credentials (throwing when absent), then construct a
client from `creds.apiKey`.  No HTTP response enters this function: it is a
pure function of the local file alone. -/
def createClient (file : Option (List (String × Json))) : Except JsError MoltbookClient :=
  match loadCredentials file with
  | .error e => .error e
  | .ok creds => .ok (MoltbookClient.init (objGet creds "apiKey"))

/-! Heartbeat timing helpers.  The state file is `Option Json`:
`none` when absent, otherwise the parsed JSON. -/

/-- loadHeartbeatState: parse the file, or the default object when absent. -/
def loadHeartbeatState (file : Option Json) : Json :=
  match file with
  | none => .obj [("lastMoltbookCheck", .num 0)]
  | some j => j

/-- The JS numeric value of `v || 0` for a stored lastMoltbookCheck value:
a falsy value (undefined, null, false, 0, empty string) gives 0, a number
gives itself, true coerces to 1.  The numeric coercion of truthy strings,
arrays and objects is not modelled (`none`, NaN-like — the state file is
written by saveHeartbeatState with a plain number, and no claim stores such
values). -/
def jsNumOrZero : Json → Option Int
  | .jsUndefined => some 0
  | .null => some 0
  | .bool b => some (cond b 1 0)
  | .num n => some n
  | .str s => if s = "" then some 0 else none
  | .arr _ => none
  | .obj _ => none

/-- The two-stage read `state.lastMoltbookCheck || 0`: the outer `none` is
the TypeError thrown by property access on a null or undefined state, the
inner layer is the numeric value (inner `none` = NaN, see `jsNumOrZero`). -/
def lastCheckNum (state : Json) : Option (Option Int) :=
  match state.getF "lastMoltbookCheck" with
  | none => none
  | some v => some (jsNumOrZero v)

/-- shouldCheckMoltbook: elapsed = now - last, threshold = hours * 3600,
some true when elapsed reaches the threshold; a NaN elapsed compares false,
and `none` propagates the TypeError of a null state file. -/
def shouldCheckMoltbook (intervalHours : Int) (now : Int) (file : Option Json) : Option Bool :=
  let state := loadHeartbeatState file
  let threshold := intervalHours * 3600
  match lastCheckNum state with
  | none => none
  | some none => some false
  | some (some last) => some (decide (now - last ≥ threshold))

/-- saveHeartbeatState: serialize the state object as the new file content. -/
def saveHeartbeatState (state : Json) : Option Json := some state

/-- JS property assignment `state.lastMoltbookCheck = v`; on a primitive it
is a silent no-op in sloppy mode. -/
def jsSetProp (j : Json) (k : String) (v : Json) : Json :=
  match j with
  | .obj fields => .obj (setField fields k v)
  | other => other

/-- updateMoltbookCheckTime: load, set lastMoltbookCheck to now, save. -/
def updateMoltbookCheckTime (now : Int) (file : Option Json) : Option Json :=
  let state := loadHeartbeatState file
  saveHeartbeatState (jsSetProp state "lastMoltbookCheck" (.num now))

/-! Error taxonomy. -/

/-- The design-level error kinds of the spec. -/
inductive ErrKind where
  | authentication
  | notFound
  | rateLimited
  | apiError
deriving DecidableEq

/-- Follows the words of the spec error taxonomy, for comparison with the
errors the code throws: 401 authentication, 404 not-found, 429 rate-limited,
any other non-2xx a generic API error. -/
def specErrorKind (status : Nat) : ErrKind :=
  if status = 401 then .authentication
  else if status = 404 then .notFound
  else if status = 429 then .rateLimited
  else .apiError

/-- The classification a caller recovers from a thrown error by branching on
its `statusCode` property; `none` when the error carries no statusCode. -/
def errKind (e : JsError) : Option ErrKind := e.statusCode.map specErrorKind

/-! Association-list lemmas for the JS-object model. -/

theorem lookup_setField_self (fields : List (String × Json)) (k : String) (v : Json) :
    List.lookup k (setField fields k v) = some v := by
  induction fields with
  | nil => simp [setField, List.lookup]
  | cons kv rest ih =>
    obtain ⟨k0, w⟩ := kv
    by_cases h : k0 = k
    · simp [setField, h, List.lookup]
    · simp only [setField, if_neg h, List.lookup]
      rw [show (k == k0) = false by simp [Ne.symm h]]
      exact ih

theorem lookup_setField_ne (fields : List (String × Json)) (k k' : String) (v : Json)
    (h : k' ≠ k) : List.lookup k' (setField fields k v) = List.lookup k' fields := by
  induction fields with
  | nil =>
    simp only [setField, List.lookup]
    rw [show (k' == k) = false by simp [h]]
  | cons kv rest ih =>
    obtain ⟨k0, w⟩ := kv
    by_cases h0 : k0 = k
    · subst h0
      simp only [setField, if_pos rfl, List.lookup]
      rw [show (k' == k0) = false by simp [h]]
    · simp only [setField, if_neg h0, List.lookup]
      cases hb : (k' == k0) with
      | true => rfl
      | false => exact ih

theorem lookup_append (l1 l2 : List (String × Json)) (k : String) :
    List.lookup k (l1 ++ l2) =
      match List.lookup k l1 with
      | some v => some v
      | none => List.lookup k l2 := by
  induction l1 with
  | nil => simp
  | cons kv rest ih =>
    obtain ⟨k0, w⟩ := kv
    simp only [List.cons_append, List.lookup]
    cases hb : (k == k0) with
    | true => rfl
    | false => exact ih

theorem lookup_foldl_setField (raw base : List (String × Json)) (k : String) :
    List.lookup k (List.foldl (fun acc kv => setField acc kv.1 kv.2) base raw) =
      match List.lookup k raw.reverse with
      | some v => some v
      | none => List.lookup k base := by
  induction raw generalizing base with
  | nil => simp
  | cons kv rest ih =>
    simp only [List.foldl_cons, List.reverse_cons]
    rw [ih, lookup_append]
    cases List.lookup k rest.reverse with
    | some v => rfl
    | none =>
      by_cases h : k = kv.1
      · subst h
        simp [List.lookup, lookup_setField_self]
      · simp only [List.lookup]
        rw [show (k == kv.1) = false by simp [h], lookup_setField_ne _ _ _ _ h]

theorem lookup_eq_none_of_not_mem_keys (l : List (String × Json)) (k : String)
    (h : k ∉ l.map Prod.fst) : List.lookup k l = none := by
  induction l with
  | nil => rfl
  | cons kv rest ih =>
    simp only [List.map_cons, List.mem_cons] at h
    push_neg at h
    simp only [List.lookup]
    rw [show (k == kv.1) = false by simp [h.1]]
    exact ih h.2

theorem lookup_reverse_of_nodup (raw : List (String × Json)) (k : String)
    (h : (raw.map Prod.fst).Nodup) : List.lookup k raw.reverse = List.lookup k raw := by
  induction raw with
  | nil => rfl
  | cons kv rest ih =>
    simp only [List.map_cons, List.nodup_cons] at h
    rw [List.reverse_cons, lookup_append, ih h.2]
    by_cases hk : k = kv.1
    · subst hk
      rw [lookup_eq_none_of_not_mem_keys rest _ h.1]
      simp [List.lookup]
    · simp only [List.lookup]
      rw [show (k == kv.1) = false by simp [hk]]
      cases List.lookup k rest <;> simp

/-! Shared request lemma. -/

/-- Whatever the status and however the body parses, `request` leaves the
client with the snapshot of this response installed. -/
theorem request_stores (c : MoltbookClient) (resp : HttpResponse) :
    (c.request resp).1 = { c with rateLimitInfo := some (storeRateLimit resp.headers) } := by
  unfold MoltbookClient.request
  cases h : resp.respOk
  · cases hm : (errBody resp).getF "message" <;> simp [h, hm]
  · cases hb : resp.body <;> simp [h, hb]

/-- Observer extracting the first string element of an array, used to tell
two payloads apart. -/
def headStr : Json → String
  | .arr (Json.str s :: _) => s
  | _ => ""

/-! Claim theorems. -/

/-- C2 counterexample: the claim says every user-supplied identifier used in
a path segment is percent-encoded, but getPost and createComment interpolate
the post id raw; for the id "a b/c" the built path contains the identifier
unencoded rather than its encoding "a%20b%2Fc". -/
theorem C2_counterexample_raw_post_id :
    getPostPath "a b/c" = "/posts/a b/c" ∧
    createCommentPath "a b/c" = "/posts/a b/c/comments" ∧
    encodeURIComponent "a b/c" = "a%20b%2Fc" ∧
    decide (getPostPath "a b/c" = "/posts/" ++ encodeURIComponent "a b/c") = false := by
  refine ⟨rfl, rfl, by decide, by decide⟩

/-- C2 (amended): agent and submolt names used in path segments are
percent-encoded via encodeURIComponent, while post ids and comment ids are
interpolated into the path unencoded; on the identifier "a b/c" the
name-taking paths carry the encoded form and the id-taking paths the raw
form. -/
theorem C2_amended_selective_encoding :
    (∀ name, followPath name = "/agents/" ++ encodeURIComponent name ++ "/follow") ∧
    (∀ name, getSubmoltPath name = "/submolts/" ++ encodeURIComponent name) ∧
    (∀ name, subscribePath name = "/submolts/" ++ encodeURIComponent name ++ "/subscribe") ∧
    (∀ name params, getSubmoltFeedPath name params =
        "/submolts/" ++ encodeURIComponent name ++ "/feed?" ++ params) ∧
    followPath "a b/c" = "/agents/a%20b%2Fc/follow" ∧
    getSubmoltPath "a b/c" = "/submolts/a%20b%2Fc" ∧
    getPostPath "a b/c" = "/posts/a b/c" ∧
    getCommentPath "a b/c" = "/comments/a b/c" ∧
    createCommentPath "a b/c" = "/posts/a b/c/comments" ∧
    upvotePostPath "a b/c" = "/posts/a b/c/upvote" := by
  refine ⟨fun _ => rfl, fun _ => rfl, fun _ => rfl, fun _ _ => rfl,
    by decide, by decide, rfl, rfl, rfl, rfl⟩

/-- C3 counterexample: for the comment-list endpoint the claim says `data`
is probed first and wins when both wrapper keys are present, but
listComments never probes `data`: with both keys present the `comments`
payload wins, and with only `data` present the result is the empty default. -/
theorem C3_counterexample_comments_ignore_data :
    listCommentsNormalize (Json.obj [("data", Json.arr [Json.str "fromData"]),
        ("comments", Json.arr [Json.str "fromComments"])])
      = some (Json.arr [Json.str "fromComments"]) ∧
    (listCommentsNormalize (Json.obj [("data", Json.arr [Json.str "fromData"]),
        ("comments", Json.arr [Json.str "fromComments"])])).map headStr
      = some "fromComments" ∧
    decide (("fromComments" : String) = "fromData") = false ∧
    listCommentsNormalize (Json.obj [("data", Json.arr [Json.str "fromData"])])
      = some (Json.arr []) := by
  refine ⟨rfl, rfl, by decide, rfl⟩

/-- C3 (amended): the post-list, feed, submolt-list and submolt-feed
normalizers probe `data` first and then the endpoint key, defaulting to the
empty array, and on those endpoints `data` wins when both keys are present;
the comment-list normalizer probes only `comments` and likewise defaults to
the empty array. -/
theorem C3_amended_probe_order :
    (∀ result, listPostsNormalize result = specProbe ["data", "posts"] result) ∧
    (∀ result, getFeedNormalize result = specProbe ["data", "posts"] result) ∧
    (∀ result, listSubmoltsNormalize result = specProbe ["data", "submolts"] result) ∧
    (∀ result, getSubmoltFeedNormalize result = specProbe ["data", "posts"] result) ∧
    (∀ result, listCommentsNormalize result = specProbe ["comments"] result) ∧
    getFeedNormalize (Json.obj [("data", Json.arr [Json.str "fromData"]),
        ("posts", Json.arr [Json.str "fromPosts"])]) = some (Json.arr [Json.str "fromData"]) ∧
    getFeedNormalize (Json.obj []) = some (Json.arr []) ∧
    listCommentsNormalize (Json.obj []) = some (Json.arr []) := by
  refine ⟨fun _ => rfl, fun _ => rfl, fun _ => rfl, fun _ => rfl, fun _ => rfl, rfl, rfl, rfl⟩

/-- The filter callback agrees pointwise with the spec-side predicate. -/
theorem relevantPred_eq_spec (o : FilterOptions) (p : Post) :
    relevantPred o p = relevantSpecB o p := by
  obtain ⟨ms, mc, kws, exs⟩ := o
  unfold relevantPred relevantSpecB
  dsimp only
  by_cases h1 : p.score < ms
  · rw [if_pos h1, show decide (ms ≤ p.score) = false by simp [not_le.mpr h1]]
    simp
  · rw [if_neg h1, show decide (ms ≤ p.score) = true by simp [not_lt.mp h1]]
    by_cases h2 : p.commentCount > mc
    · rw [if_pos h2, show decide (p.commentCount ≤ mc) = false by simp [not_le.mpr h2]]
      simp
    · rw [if_neg h2, show decide (p.commentCount ≤ mc) = true by simp [not_lt.mp h2]]
      simp only [Bool.true_and]
      cases kws with
      | nil =>
        simp only [List.length_nil, List.any_nil, List.isEmpty_nil, Bool.true_or]
        cases exs with
        | nil => simp
        | cons e es =>
          cases hE : (e :: es).any (fun kw => strIncludes (postText p) (jsToLower kw)) <;>
            simp [hE]
      | cons x xs =>
        simp only [List.isEmpty_cons, List.length_cons]
        cases hA : (x :: xs).any (fun kw => strIncludes (postText p) (jsToLower kw)) with
        | false => simp [hA]
        | true =>
          cases exs with
          | nil => simp
          | cons e es =>
            cases hE : (e :: es).any (fun kw => strIncludes (postText p) (jsToLower kw)) <;>
              simp [hE]

/-- C4: getRelevantPosts returns exactly the order-preserving filter of the
fetched feed by the spec predicate (score at least minScore, comment count
at most maxComments, some keyword matching case-insensitively when the
keyword list is non-empty, no excluded keyword matching); on the two example
posts with minScore 5 and keyword "security" only the first post survives. -/
theorem C4_getRelevantPosts_filter :
    (∀ feed o, getRelevantPosts feed o = feed.filter (relevantSpecB o)) ∧
    getRelevantPosts
      [{ title := "Security talk", content := "", score := 10, commentCount := 2 },
       { title := "Cats", content := "", score := 10, commentCount := 2 }]
      { minScore := 5, keywords := ["security"] }
    = [{ title := "Security talk", content := "", score := 10, commentCount := 2 }] := by
  constructor
  · intro feed o
    exact List.filter_congr fun p _ => relevantPred_eq_spec o p
  · decide

/-- After writing the timestamp, reading it back yields that number. -/
theorem lastCheckNum_setField (fields : List (String × Json)) (now : Int) :
    lastCheckNum (.obj (setField fields "lastMoltbookCheck" (.num now)))
      = some (some now) := by
  unfold lastCheckNum Json.getF objGet
  dsimp only
  rw [lookup_setField_self]
  rfl

/-- C5: shouldCheckMoltbook is true exactly when now - last reaches
intervalHours * 3600, with last read as 0 when the state file is absent;
consequently shouldCheckMoltbook 2 is false immediately after
updateMoltbookCheckTime at the same now, and true once the stored timestamp
is now - 3*3600. -/
theorem C5_shouldCheckMoltbook_threshold :
    (∀ (intervalHours now n : Int) (file : Option Json),
        lastCheckNum (loadHeartbeatState file) = some (some n) →
        (shouldCheckMoltbook intervalHours now file = some true ↔
          now - n ≥ intervalHours * 3600)) ∧
    lastCheckNum (loadHeartbeatState none) = some (some 0) ∧
    (∀ (now : Int) (fields : List (String × Json)),
        shouldCheckMoltbook 2 now (updateMoltbookCheckTime now (some (.obj fields)))
          = some false) ∧
    (∀ now : Int, shouldCheckMoltbook 2 now (updateMoltbookCheckTime now none)
        = some false) ∧
    (∀ now : Int, shouldCheckMoltbook 2 now
        (some (.obj [("lastMoltbookCheck", .num (now - 3 * 3600))])) = some true) := by
  have hrun : ∀ (i now n : Int) (file : Option Json),
      lastCheckNum (loadHeartbeatState file) = some (some n) →
      shouldCheckMoltbook i now file = some (decide (now - n ≥ i * 3600)) := by
    intro i now n file h
    unfold shouldCheckMoltbook
    dsimp only
    rw [h]
  refine ⟨?_, rfl, ?_, ?_, ?_⟩
  · intro i now n file h
    rw [hrun i now n file h]
    simp
  · intro now fields
    rw [hrun 2 now now _ (by
      show lastCheckNum (Json.obj (setField fields "lastMoltbookCheck" (Json.num now))) = _
      exact lastCheckNum_setField fields now)]
    simp
  · intro now
    rw [hrun 2 now now _ (by
      show lastCheckNum (Json.obj (setField [("lastMoltbookCheck", Json.num 0)]
        "lastMoltbookCheck" (Json.num now))) = _
      exact lastCheckNum_setField _ now)]
    simp
  · intro now
    rw [hrun 2 now (now - 3 * 3600) _ (by rfl)]
    simp

/-- C5 witness: the iff at a concrete input. -/
theorem C5_shouldCheckMoltbook_threshold_witness :
    shouldCheckMoltbook 2 10000 none = some true ↔ (10000 : Int) - 0 ≥ 2 * 3600 :=
  C5_shouldCheckMoltbook_threshold.1 2 10000 0 none rfl

/-- C6: every completed response, whatever its status, overwrites the
rate-limit snapshot with the four fields read from the x-ratelimit-*
headers (limit, remaining, reset, and the derived reset-as-timestamp);
getRateLimitInfo reads the snapshot back, and isRateLimited is true exactly
when a snapshot exists whose remaining equals 0. -/
theorem C6_rate_limit_snapshot :
    (∀ (c : MoltbookClient) (resp : HttpResponse),
        (c.request resp).1.rateLimitInfo = some (storeRateLimit resp.headers)) ∧
    (∀ headers,
        (storeRateLimit headers).limit = headerNum headers "x-ratelimit-limit" ∧
        (storeRateLimit headers).remaining = headerNum headers "x-ratelimit-remaining" ∧
        (storeRateLimit headers).reset = headerNum headers "x-ratelimit-reset" ∧
        (storeRateLimit headers).resetAt
          = (headerNum headers "x-ratelimit-reset").map (· * 1000)) ∧
    (∀ c : MoltbookClient, c.getRateLimitInfo = c.rateLimitInfo) ∧
    (∀ c : MoltbookClient, c.isRateLimited = true ↔
        ∃ info, c.rateLimitInfo = some info ∧ info.remaining = some 0) := by
  refine ⟨?_, fun headers => ⟨rfl, rfl, rfl, rfl⟩, fun c => rfl, ?_⟩
  · intro c resp
    rw [request_stores]
  · intro c
    unfold MoltbookClient.isRateLimited
    cases h : c.rateLimitInfo with
    | none => simp
    | some info => simp

/-- The all-zero snapshot parsed when no rate-limit headers are present. -/
def zeroRateLimit : RateLimitInfo :=
  { limit := some 0, remaining := some 0, reset := some 0, resetAt := some 0 }

/-- C10: when the response carries none of the x-ratelimit-* headers the
stored snapshot has limit, remaining and reset all 0 (so isRateLimited
reports true after such a response), while before any request the snapshot
is null: getRateLimitInfo returns none and isRateLimited is false. -/
theorem C10_missing_headers_all_zero :
    (∀ headers,
        List.lookup "x-ratelimit-limit" headers = none →
        List.lookup "x-ratelimit-remaining" headers = none →
        List.lookup "x-ratelimit-reset" headers = none →
        storeRateLimit headers = zeroRateLimit) ∧
    (∀ (c : MoltbookClient) (resp : HttpResponse),
        storeRateLimit resp.headers = zeroRateLimit →
        (c.request resp).1.isRateLimited = true) ∧
    (∀ apiKey, (MoltbookClient.init apiKey).getRateLimitInfo = none) ∧
    (∀ apiKey, (MoltbookClient.init apiKey).isRateLimited = false) := by
  refine ⟨?_, ?_, fun _ => rfl, fun _ => rfl⟩
  · intro headers h1 h2 h3
    unfold storeRateLimit headerNum
    rw [h1, h2, h3]
    rfl
  · intro c resp h
    rw [show (c.request resp).1.isRateLimited
        = ({ c with rateLimitInfo := some (storeRateLimit resp.headers) } :
            MoltbookClient).isRateLimited by rw [request_stores]]
    unfold MoltbookClient.isRateLimited
    rw [h]
    rfl

/-- C10 witness: a response with unrelated headers yields the all-zero
snapshot, and the client then reports itself rate limited. -/
theorem C10_missing_headers_all_zero_witness :
    storeRateLimit [("content-type", "application/json")] = zeroRateLimit ∧
    ((MoltbookClient.init Json.jsUndefined).request
        { status := 200, statusText := "OK",
          headers := [("content-type", "application/json")],
          body := some Json.null }).1.isRateLimited = true :=
  ⟨C10_missing_headers_all_zero.1 _ rfl rfl rfl,
   C10_missing_headers_all_zero.2.1 _ _ (C10_missing_headers_all_zero.1 _ rfl rfl rfl)⟩

/-- A 401 response; the body is absent so the statusText fallback applies. -/
def resp401 : HttpResponse :=
  { status := 401, statusText := "Unauthorized", headers := [], body := none }

/-- A 404 response; the body is absent so the statusText fallback applies. -/
def resp404 : HttpResponse :=
  { status := 404, statusText := "Not Found", headers := [], body := none }

/-- The 429 response of the claim, with JSON body
message "slow down", retryAfter 30. -/
def resp429 : HttpResponse :=
  { status := 429, statusText := "Too Many Requests", headers := [],
    body := some (.obj [("message", .str "slow down"), ("retryAfter", .num 30)]) }

/-- A 401 response whose JSON body is the literal null: the body parses, so
the statusText fallback does not fire, and reading error.message throws. -/
def respNull401 : HttpResponse :=
  { status := 401, statusText := "Unauthorized", headers := [], body := some .null }

/-- C1 counterexample: the claim quantifies over every non-2xx response, but
at a 401 response whose JSON body is the literal null, reading error.message
throws a bare TypeError: request ends in an error with no statusCode, from
which no taxonomy kind (in particular not the authentication kind of a 401)
is recoverable. -/
theorem C1_counterexample_null_error_body :
    ((MoltbookClient.init (Json.str "key")).request respNull401).2
      = .error nullBodyTypeError ∧
    nullBodyTypeError.statusCode = none ∧
    errKind nullBodyTypeError = none ∧
    decide (errKind nullBodyTypeError = some (specErrorKind 401)) = false := by
  refine ⟨rfl, rfl, rfl, by decide⟩

/-- C1 (amended): for every non-2xx response on which reading message from
the error payload succeeds (any payload except the JSON literal null; an
unparseable body falls back to an object built from the status text), the
thrown error carries the HTTP status, from which the spec taxonomy is
recovered (401 authentication, 404 not-found, 429 rate-limited, otherwise
generic); a 401 error and a 404 error classify differently, and the 429
error with the example body exposes retryAfter = 30 on its response
payload.  When the error payload is the literal null, a bare TypeError with
no statusCode is thrown instead. -/
theorem C1_amended_error_kinds :
    (∀ (resp : HttpResponse) (m : Json),
        (errOfResponse resp m).statusCode = some resp.status) ∧
    (∀ (resp : HttpResponse) (m : Json),
        errKind (errOfResponse resp m) = some (specErrorKind resp.status)) ∧
    ((MoltbookClient.init (Json.str "key")).request resp401).2
      = .error (errOfResponse resp401 (Json.str "Unauthorized")) ∧
    ((MoltbookClient.init (Json.str "key")).request resp404).2
      = .error (errOfResponse resp404 (Json.str "Not Found")) ∧
    ((MoltbookClient.init (Json.str "key")).request resp429).2
      = .error (errOfResponse resp429 (Json.str "slow down")) ∧
    errKind (errOfResponse resp401 (Json.str "Unauthorized")) = some .authentication ∧
    errKind (errOfResponse resp404 (Json.str "Not Found")) = some .notFound ∧
    errKind (errOfResponse resp429 (Json.str "slow down")) = some .rateLimited ∧
    decide (ErrKind.authentication = ErrKind.notFound) = false ∧
    (errOfResponse resp429 (Json.str "slow down")).message = "slow down" ∧
    (errOfResponse resp429 (Json.str "slow down")).response.map
        (fun j => j.getF "retryAfter") = some (some (.num 30)) ∧
    ((MoltbookClient.init (Json.str "key")).request respNull401).2
      = .error nullBodyTypeError := by
  refine ⟨fun resp m => rfl, fun resp m => rfl, rfl, rfl, rfl, rfl, rfl, rfl,
    by decide, rfl, rfl, rfl⟩

/-- Reading any key of the normalized credentials object: a key present in
the raw file wins (the spread is evaluated last), otherwise the computed
canonical entry of `credBase` is exposed. -/
theorem getF_normalizeCreds (raw : List (String × Json))
    (h : (raw.map Prod.fst).Nodup) (k : String) :
    (Json.obj (normalizeCreds raw)).getF k =
      some (match List.lookup k raw with
            | some v => v
            | none => objGet (credBase raw) k) := by
  show some ((List.lookup k (normalizeCreds raw)).getD Json.jsUndefined) = _
  unfold normalizeCreds objGet
  rw [lookup_foldl_setField, lookup_reverse_of_nodup raw k h]
  cases List.lookup k raw <;> rfl

/-- C7: the credentials read merges both stylings: each canonical camelCase
field equals the raw camelCase value when that key is present (canonical
precedence), and otherwise the snake_case value (api_key to apiKey,
profile_url to profileUrl, verification_code to verificationCode,
created_at to createdAt); in particular a file containing only api_key "x"
exposes apiKey "x". -/
theorem C7_credentials_merge :
    ((Json.obj (normalizeCreds [("api_key", Json.str "x")])).getF "apiKey"
      = some (Json.str "x")) ∧
    (loadCredentials (some [("api_key", Json.str "x")])
      = .ok (normalizeCreds [("api_key", Json.str "x")])) ∧
    (∀ raw, (raw.map Prod.fst).Nodup →
      ((Json.obj (normalizeCreds raw)).getF "apiKey" =
        match List.lookup "apiKey" raw with
        | some v => some v
        | none => (Json.obj raw).getF "api_key") ∧
      ((Json.obj (normalizeCreds raw)).getF "profileUrl" =
        match List.lookup "profileUrl" raw with
        | some v => some v
        | none => (Json.obj raw).getF "profile_url") ∧
      ((Json.obj (normalizeCreds raw)).getF "verificationCode" =
        match List.lookup "verificationCode" raw with
        | some v => some v
        | none => (Json.obj raw).getF "verification_code") ∧
      ((Json.obj (normalizeCreds raw)).getF "createdAt" =
        match List.lookup "createdAt" raw with
        | some v => some v
        | none => (Json.obj raw).getF "created_at")) := by
  refine ⟨rfl, rfl, ?_⟩
  intro raw h
  have base : ∀ k : String,
      (Json.obj (normalizeCreds raw)).getF k =
        some (match List.lookup k raw with
              | some v => v
              | none => objGet (credBase raw) k) :=
    getF_normalizeCreds raw h
  refine ⟨?_, ?_, ?_, ?_⟩ <;> rw [base] <;>
    [cases hl : List.lookup "apiKey" raw;
     cases hl : List.lookup "profileUrl" raw;
     cases hl : List.lookup "verificationCode" raw;
     cases hl : List.lookup "createdAt" raw] <;>
    first
      | rfl
      | (show some (jsOrVal (objGet raw _) (objGet raw _)) = _
         unfold Json.getF objGet jsOrVal
         dsimp only
         rw [hl]
         rfl)

/-- C7 witness: with both stylings present, the canonical camelCase value
wins. -/
theorem C7_credentials_merge_witness :
    (Json.obj (normalizeCreds [("apiKey", Json.str "a"), ("api_key", Json.str "b")])).getF
        "apiKey" = some (Json.str "a") :=
  (C7_credentials_merge.2.2 [("apiKey", Json.str "a"), ("api_key", Json.str "b")]
    (by decide)).1

/-- C8: with the credentials file absent, createClient fails with the
not-registered error before any response is consumed (createClient is a
function of the local file alone); that error carries no statusCode, while
every typed API error request builds carries the status of its response, so
the local failure is distinguishable from the remote API errors the claim
speaks of (those carrying an HTTP status code). -/
theorem C8_not_registered :
    createClient none = Except.error notRegisteredError ∧
    loadCredentials none = Except.error notRegisteredError ∧
    notRegisteredError.statusCode = none ∧
    notRegisteredError.message =
      "Moltbook credentials not found. Run registration first or create ~/.config/moltbook/credentials.json" ∧
    (∀ (resp : HttpResponse) (m : Json),
        (errOfResponse resp m).statusCode = some resp.status) ∧
    (∀ (resp : HttpResponse) (m : Json),
        decide (notRegisteredError.statusCode = (errOfResponse resp m).statusCode)
          = false) := by
  refine ⟨rfl, rfl, rfl, rfl, fun resp m => rfl, fun resp m => ?_⟩
  show decide ((none : Option Nat) = some resp.status) = false
  simp

/-- C9: updateMoltbookCheckTime on a present state file writes back the same
object with lastMoltbookCheck set to now: reading that key back yields now,
and reading any other key yields exactly what the original file held. -/
theorem C9_update_preserves_other_fields :
    (∀ (now : Int) (fields : List (String × Json)),
        updateMoltbookCheckTime now (some (.obj fields)) =
          some (.obj (setField fields "lastMoltbookCheck" (.num now)))) ∧
    (∀ (now : Int) (fields : List (String × Json)),
        List.lookup "lastMoltbookCheck" (setField fields "lastMoltbookCheck" (Json.num now))
          = some (Json.num now)) ∧
    (∀ (now : Int) (fields : List (String × Json)) (k : String),
        k ≠ "lastMoltbookCheck" →
        List.lookup k (setField fields "lastMoltbookCheck" (Json.num now))
          = List.lookup k fields) :=
  ⟨fun _ _ => rfl, fun _ fields => lookup_setField_self fields _ _,
   fun _ fields _ hk => lookup_setField_ne fields _ _ _ hk⟩

/-- C9 witness: a concrete unrelated field survives the rewrite. -/
theorem C9_update_preserves_other_fields_witness :
    List.lookup "theme" (setField [("theme", Json.str "dark")] "lastMoltbookCheck"
        (Json.num 5)) = List.lookup "theme" [("theme", Json.str "dark")] :=
  C9_update_preserves_other_fields.2.2 5 [("theme", Json.str "dark")] "theme" (by decide)

end Moltbook
